import Mathlib

/-!
Verification of the bim-viewer backend (src/backend/app.py): the
authorization / access-control model over projects, permissions and
issues, shallowly embedded in Lean.

Modelling conventions:
* The three DynamoDB tables become three Lean lists inside a `Store`.
* Timestamps (`createdAt`, `updatedAt`, ISO-8601 strings in the code,
  which compare lexicographically iff chronologically) become `Nat`.
* Calls to external services that can fail (S3 upload, presigned-URL
  generation, DynamoDB scans/puts raising `ClientError`) are modelled by
  boolean outcome flags collected in an `Env` record; Cognito user
  lookup (`check_user_exists`) is modelled by a `UserLookup` outcome.
* Each Flask handler becomes a pure function returning the HTTP status
  code, the returned payload (when one matters to a claim) and the
  post-state of the store.
-/

namespace BimViewer

/-- A row of the `bim-viewer-projects` table, as written by `create_project`. -/
structure Project where
  projectId : String
  projectName : String
  modelKey : String
  ownerId : String
  createdAt : Nat
deriving Repr, DecidableEq

/-- A row of the `bim-viewer-project-permissions` table. -/
structure Permission where
  permissionId : String
  projectId : String
  userId : String
  role : String
deriving Repr, DecidableEq

/-- A row of the `bim-viewer-issues` table, as written by `create_issue`
(partition key `projectId`, range key `sortKey`). -/
structure Issue where
  projectId : String
  sortKey : String
  id : String
  objectId : String
  title : String
  description : String
  author : String
  priority : String
  status : String
  createdAt : Nat
  updatedAt : Nat
  owner_sub : String
deriving Repr, DecidableEq

/-- The contents of the three tables: the single source of truth. -/
structure Store where
  projects : List Project
  permissions : List Permission
  issues : List Issue
deriving Repr, DecidableEq

/-- Outcome flags for the external calls a handler makes.  `true` for the
`Ok` fields / `false` for the `Fails` fields means the call succeeds;
otherwise it raises `ClientError` (or returns `None` for presigning),
which the handlers catch as in the code. -/
structure Env where
  permScanFails : Bool
  projGetFails : Bool
  issueScanFails : Bool
  s3UploadOk : Bool
  presignOk : Bool
  projPutOk : Bool
  permPutOk : Bool
  issuePutOk : Bool
  issueUpdateOk : Bool
  issueDeleteOk : Bool
deriving Repr, DecidableEq

/-- An `Env` in which every external call succeeds. -/
def envOk : Env :=
  ⟨false, false, false, true, true, true, true, true, true, true⟩

/-- Outcome of `check_user_exists(email)` against Cognito:
the user exists with the given `sub`, does not exist
(`UserNotFoundException`, or no `sub` attribute), or the lookup errors. -/
inductive UserLookup where
  | found (sub : String)
  | notFound
  | error
deriving Repr, DecidableEq

/-- Python's `str.strip()`: drop leading and trailing whitespace.
(Defined over the character list so that it is executable by the
kernel; `String.trim` is extensionally the same function here.) -/
def pyStrip (s : String) : String :=
  ⟨((s.data.dropWhile Char.isWhitespace).reverse.dropWhile Char.isWhitespace).reverse⟩

/-- Python's `str.lower()`, character by character. -/
def pyLower (s : String) : String :=
  ⟨s.data.map Char.toLower⟩

/-- `filename.rsplit('.', 1)[1]`: the substring after the last dot. -/
def extAfterLastDot (s : String) : String :=
  ⟨(s.data.reverse.takeWhile (fun c => c ≠ '.')).reverse⟩

/-- `allowed_file`: `'.' in filename and filename.rsplit('.', 1)[1].lower()
in ALLOWED_EXTENSIONS` with `ALLOWED_EXTENSIONS = {'glb'}`. -/
def allowed_file (filename : String) : Bool :=
  filename.data.contains '.' &&
    ["glb"].contains (pyLower (extAfterLastDot filename))

/-- `user_has_project_access(user_sub, project_id)`: scans the permissions
table for a row with matching `projectId` and `userId`; returns `False`
when the scan raises (the `except` branch prints and returns `False`). -/
def user_has_project_access (env : Env) (perms : List Permission)
    (user_sub project_id : String) : Bool :=
  if env.permScanFails then false
  else
    (perms.filter fun p => p.projectId == project_id && p.userId == user_sub).length > 0

/-- `validate_issue_data`'s emptiness test for one required field:
`field not in data or not data[field].strip()`. -/
def fieldMissingOrEmpty (o : Option String) : Bool :=
  match o with
  | none => true
  | some s => pyStrip s == ""

/-- The JSON body of `POST /api/issues`.  `none` models an absent key. -/
structure IssueReq where
  title : Option String
  description : Option String
  objectId : Option String
  author : Option String
  projectId : Option String
  priority : Option String
  status : Option String
deriving Repr, DecidableEq

/-- `validate_issue_data(data)`: required fields `title`, `description`,
`objectId`, `author` must be present and non-empty after `strip()`;
`priority` and `status`, when present, must lie in their enumerations.
Returns `(is_valid, error_msg)`. -/
def validate_issue_data (data : IssueReq) : Bool × String :=
  if fieldMissingOrEmpty data.title then (false, "Missing or empty field: title")
  else if fieldMissingOrEmpty data.description then (false, "Missing or empty field: description")
  else if fieldMissingOrEmpty data.objectId then (false, "Missing or empty field: objectId")
  else if fieldMissingOrEmpty data.author then (false, "Missing or empty field: author")
  else if (match data.priority with
           | some p => !(["low", "medium", "high"].contains p)
           | none => false) then
    (false, "Priority must be low, medium, or high")
  else if (match data.status with
           | some s => !(["open", "in-progress", "resolved"].contains s)
           | none => false) then
    (false, "Status must be open, in-progress, or resolved")
  else (true, "")

/-- `GET /api/projects/<project_id>` (`get_project`): access check first
(404 on denial, indistinguishable from absence), then `get_item` (404 if
missing, 500 if the call raises), then presigned-URL generation (500 if
it yields `None`).  Returns the status code and the project payload. -/
def get_project (env : Env) (st : Store) (current_user_sub project_id : String) :
    Nat × Option Project :=
  if !(user_has_project_access env st.permissions current_user_sub project_id) then
    (404, none)
  else if env.projGetFails then (500, none)
  else
    match st.projects.find? (fun p => p.projectId == project_id) with
    | none => (404, none)
    | some project =>
      if env.presignOk then (200, some project) else (500, none)

/-- `POST /api/projects` (`create_project`).  Arguments `file` and
`projectName` model the multipart fields (`none` when absent); the
generated S3 key, project id, permission id and timestamp are passed in
(they come from `uuid4()` / the clock).  Mirrors the code's order: field
presence, filename validation, S3 upload, then the two `put_item` calls
(non-transactional: a project write can survive a failed permission
write). -/
def create_project (env : Env) (st : Store) (current_user_sub : String)
    (file : Option String) (projectName : Option String)
    (model_key project_id permission_id : String) (created_at : Nat) :
    Nat × Option Project × Store :=
  match file, projectName with
  | none, _ => (400, none, st)
  | some _, none => (400, none, st)
  | some filename, some name =>
    if filename == "" || !(allowed_file filename) then (400, none, st)
    else if !env.s3UploadOk then (500, none, st)
    else
      let project : Project :=
        ⟨project_id, name, model_key, current_user_sub, created_at⟩
      let permission : Permission :=
        ⟨permission_id, project_id, current_user_sub, "owner"⟩
      if !env.projPutOk then (500, none, st)
      else if !env.permPutOk then
        (500, none, { st with projects := st.projects ++ [project] })
      else
        (201, some project,
          { st with
            projects := st.projects ++ [project]
            permissions := st.permissions ++ [permission] })

/-- `POST /api/projects/<project_id>/invite` (`invite_user_to_project`):
ownership check against `Project.ownerId` (403 when the project is
absent or owned by someone else), body check (400 when no email), Cognito
lookup (404 / 500), duplicate-permission scan (400 "already invited" on
conflict, 500 on scan error), then `put_item` of a collaborator row. -/
def invite_user_to_project (env : Env) (st : Store) (lookup : UserLookup)
    (current_user_sub project_id : String) (body_email : Option String)
    (fresh_permission_id : String) : Nat × Store :=
  if env.projGetFails then (500, st)
  else
    match st.projects.find? (fun p => p.projectId == project_id) with
    | none => (403, st)
    | some project_item =>
      if project_item.ownerId != current_user_sub then (403, st)
      else
        match body_email with
        | none => (400, st)
        | some _invitee_email =>
          match lookup with
          | .error => (500, st)
          | .notFound => (404, st)
          | .found invitee_sub =>
            if env.permScanFails then (500, st)
            else if !(st.permissions.filter fun p =>
                p.projectId == project_id && p.userId == invitee_sub).isEmpty then
              (400, st)
            else if !env.permPutOk then (500, st)
            else
              (200,
                { st with
                  permissions := st.permissions ++
                    [⟨fresh_permission_id, project_id, invitee_sub, "collaborator"⟩] })

/-- `POST /api/issues` (`create_issue`): required-field presence check,
project access check (403 on denial), `validate_issue_data` (400), then
`put_item` of the new row with `sortKey = "ISSUE#" + id + "#" + createdAt`
and defaults `priority = medium`, `status = open`. -/
def create_issue (env : Env) (st : Store) (current_user_sub : String)
    (data : IssueReq) (issue_id : String) (created_at : Nat) :
    Nat × Option Issue × Store :=
  if data.title.isNone || data.description.isNone || data.objectId.isNone ||
      data.author.isNone || data.projectId.isNone then
    (400, none, st)
  else if !(user_has_project_access env st.permissions current_user_sub
      (data.projectId.getD "")) then
    (403, none, st)
  else if !(validate_issue_data data).1 then (400, none, st)
  else
    let issue : Issue :=
      { projectId := data.projectId.getD ""
        sortKey := "ISSUE#" ++ issue_id ++ "#" ++ toString created_at
        id := issue_id
        objectId := data.objectId.getD ""
        title := pyStrip (data.title.getD "")
        description := pyStrip (data.description.getD "")
        author := pyStrip (data.author.getD "")
        priority := data.priority.getD "medium"
        status := data.status.getD "open"
        createdAt := created_at
        updatedAt := created_at
        owner_sub := current_user_sub }
    if env.issuePutOk then (201, some issue, { st with issues := st.issues ++ [issue] })
    else (500, none, st)

/-- The JSON body of `PUT /api/issues/<issue_id>`; `none` models an
absent key.  A wholly absent / empty body is modelled by passing
`none : Option UpdateReq` to `update_issue` (the `if not data` check). -/
structure UpdateReq where
  title : Option String
  description : Option String
  status : Option String
  priority : Option String
deriving Repr, DecidableEq

/-- The per-field validation `update_issue` performs on the whitelisted
fields it finds in the body: non-empty `title`/`description` after
`strip()`, enumerated `status`/`priority`. -/
def update_fields_valid (d : UpdateReq) : Bool :=
  (match d.title with | some t => !(pyStrip t == "") | none => true) &&
  (match d.description with | some s => !(pyStrip s == "") | none => true) &&
  (match d.status with | some s => ["open", "in-progress", "resolved"].contains s | none => true) &&
  (match d.priority with | some p => ["low", "medium", "high"].contains p | none => true)

/-- The record written by `update_issue`'s `UpdateExpression`: `updatedAt`
is always set to the current time; each whitelisted field present in the
body is set to its stripped value; everything else is untouched. -/
def applyUpdate (cur : Issue) (d : UpdateReq) (now : Nat) : Issue :=
  { cur with
    updatedAt := now
    title := match d.title with | some t => pyStrip t | none => cur.title
    description := match d.description with | some s => pyStrip s | none => cur.description
    status := match d.status with | some s => pyStrip s | none => cur.status
    priority := match d.priority with | some p => pyStrip p | none => cur.priority }

/-- `PUT /api/issues/<issue_id>` (`update_issue`): empty-body check, scan
by logical `id` (500 when the scan raises, 404 when no row matches; the
first match is taken), access check on the issue's project (403), field
validation (400), then `update_item` keyed on `(projectId, sortKey)`
returning `ALL_NEW`. -/
def update_issue (env : Env) (st : Store) (current_user_sub issue_id : String)
    (data : Option UpdateReq) (now : Nat) : Nat × Option Issue × Store :=
  match data with
  | none => (400, none, st)
  | some d =>
    if env.issueScanFails then (500, none, st)
    else
      match st.issues.find? (fun i => i.id == issue_id) with
      | none => (404, none, st)
      | some current_issue =>
        if !(user_has_project_access env st.permissions current_user_sub
            current_issue.projectId) then
          (403, none, st)
        else if !(update_fields_valid d) then (400, none, st)
        else if env.issueUpdateOk then
          let updated := applyUpdate current_issue d now
          (200, some updated,
            { st with
              issues := st.issues.map fun i =>
                if i.projectId == current_issue.projectId &&
                    i.sortKey == current_issue.sortKey then updated else i })
        else (500, none, st)

/-- `DELETE /api/issues/<issue_id>` (`delete_issue`): scan by logical
`id`, access check (403), then `delete_item` keyed on
`(projectId, sortKey)`. -/
def delete_issue (env : Env) (st : Store) (current_user_sub issue_id : String) :
    Nat × Store :=
  if env.issueScanFails then (500, st)
  else
    match st.issues.find? (fun i => i.id == issue_id) with
    | none => (404, st)
    | some current_issue =>
      if !(user_has_project_access env st.permissions current_user_sub
          current_issue.projectId) then
        (403, st)
      else if env.issueDeleteOk then
        (200,
          { st with
            issues := st.issues.filter fun i =>
              !(i.projectId == current_issue.projectId &&
                i.sortKey == current_issue.sortKey) })
      else (500, st)

/-- Descending-by-`sortKey` order of a DynamoDB query with
`ScanIndexForward=False`: `a` may precede `b` iff `a.sortKey` is not
below `b.sortKey`. -/
def sortKeyGe (a b : Issue) : Prop := ¬ a.sortKey < b.sortKey

instance : DecidableRel sortKeyGe := fun a b =>
  inferInstanceAs (Decidable ¬ a.sortKey < b.sortKey)

/-- Descending-by-`createdAt` order used by the final in-memory
`sort(key=..., reverse=True)`. -/
def createdGe (a b : Issue) : Prop := b.createdAt ≤ a.createdAt

instance : DecidableRel createdGe := fun a b =>
  inferInstanceAs (Decidable (b.createdAt ≤ a.createdAt))

instance : IsTotal Issue createdGe := ⟨fun a b => Nat.le_total b.createdAt a.createdAt⟩

instance : IsTrans Issue createdGe := ⟨fun _ _ _ h₁ h₂ => Nat.le_trans h₂ h₁⟩

/-- The issue-table query under a project partition, newest `sortKey`
first (`ScanIndexForward=False`); a stable sort models the store's
ordered range read. -/
def queryIssuesDesc (issues : List Issue) (project_id : String) : List Issue :=
  List.insertionSort sortKeyGe (issues.filter fun i => i.projectId == project_id)

/-- The query-string filters of `GET /api/issues`. -/
structure IssueFilters where
  status : Option String
  priority : Option String
  objectId : Option String
  projectId : Option String
deriving Repr, DecidableEq

/-- The in-memory post-filtering of `get_all_issues`: conjunctive
status / priority / objectId filters, in the code's order. -/
def applyFilters (f : IssueFilters) (l : List Issue) : List Issue :=
  let l₁ := match f.status with
            | some s => l.filter fun i => i.status == s
            | none => l
  let l₂ := match f.priority with
            | some p => l₁.filter fun i => i.priority == p
            | none => l₁
  match f.objectId with
  | some o => l₂.filter fun i => i.objectId == o
  | none => l₂

/-- The final `accessible_issues.sort(key=lambda x: x.get('createdAt', ''),
reverse=True)`: a stable descending sort by creation time. -/
def sortByCreatedDesc (l : List Issue) : List Issue :=
  List.insertionSort createdGe l

/-- `GET /api/issues` (`get_all_issues`).  With a `projectId` filter:
access check, then a partition query (an unauthorized caller silently
gets the empty collection).  Without: scan the caller's permissions
(500 when that scan raises), query each accessible project and
concatenate.  Either way, apply the remaining filters and sort by
`createdAt` descending.  Returns status and the issue list. -/
def get_all_issues (env : Env) (st : Store) (current_user_sub : String)
    (f : IssueFilters) : Nat × List Issue :=
  match f.projectId with
  | some project_id_filter =>
    let accessible_issues :=
      if user_has_project_access env st.permissions current_user_sub
          project_id_filter then
        queryIssuesDesc st.issues project_id_filter
      else []
    (200, sortByCreatedDesc (applyFilters f accessible_issues))
  | none =>
    if env.permScanFails then (500, [])
    else
      let user_project_ids :=
        (st.permissions.filter fun p => p.userId == current_user_sub).map
          (fun p => p.projectId)
      let accessible_issues :=
        (user_project_ids.map fun pid => queryIssuesDesc st.issues pid).flatten
      (200, sortByCreatedDesc (applyFilters f accessible_issues))

/-! ## Test fixtures (concrete stores used by witnesses and counterexamples) -/

/-- A project owned by `alice`. -/
def projA : Project := ⟨"p1", "House", "key1", "alice", 1⟩

/-- Alice's owner permission on `p1`, written at project creation. -/
def permAlice : Permission := ⟨"perm1", "p1", "alice", "owner"⟩

/-- An issue inside project `p1`. -/
def issue1 : Issue :=
  ⟨"p1", "ISSUE#i1#5", "i1", "wall-1", "Crack", "Crack in wall", "alice",
    "medium", "open", 5, 5, "alice"⟩

/-- A store holding one project (owned by `alice`), its owner permission
and one issue; subjects `bob` and `carol` hold no permission. -/
def baseStore : Store := ⟨[projA], [permAlice], [issue1]⟩

/-! ## General lemmas -/

/-- A subject with no permission row on a project never passes the
access check (regardless of whether the permission scan succeeds). -/
theorem access_false_of_no_row (env : Env) (perms : List Permission) (S P : String)
    (h : ∀ p ∈ perms, ¬ (p.projectId = P ∧ p.userId = S)) :
    user_has_project_access env perms S P = false := by
  unfold user_has_project_access
  split
  · rfl
  · have hnil : (perms.filter fun p => p.projectId == P && p.userId == S) = [] := by
      rw [List.filter_eq_nil_iff]
      intro p hp
      have := h p hp
      simp only [Bool.and_eq_true, beq_iff_eq]
      tauto
    simp [hnil]

/-- Filtering an empty issue list yields an empty list, whatever the
filters are. -/
theorem applyFilters_nil (f : IssueFilters) : applyFilters f [] = [] := by
  rcases f with ⟨s, p, o, pid⟩
  unfold applyFilters
  cases s <;> cases p <;> cases o <;> simp

/-! ## Claims -/

/-- C3: for every subject S without a permission row on project P —
whether or not P exists — `get_project` fails with NotFound (404) and
returns no data, never Forbidden (403): access denial and nonexistence
are indistinguishable to the caller. -/
theorem C3_get_project_notFound_when_no_permission (env : Env) (st : Store)
    (S P : String)
    (h : ∀ p ∈ st.permissions, ¬ (p.projectId = P ∧ p.userId = S)) :
    get_project env st S P = (404, none) := by
  unfold get_project
  rw [access_false_of_no_row env st.permissions S P h]
  rfl

/-- Witness for C3: `carol` was never granted anything on `p1` (which
does exist and is owned by `alice`), and her `get_project` call yields
404 with no payload. -/
theorem C3_get_project_notFound_when_no_permission_witness :
    get_project envOk baseStore "carol" "p1" = (404, none) :=
  C3_get_project_notFound_when_no_permission envOk baseStore "carol" "p1"
    (by decide)

/-- C2: a subject who is not the owner of project P (every project row
with id P — if any — names a different `ownerId`) always gets Forbidden
(403) from `invite_user_to_project`, whatever the invitee lookup would
return, and the store is unchanged: no permission row is written. -/
theorem C2_invite_forbidden_for_non_owner (env : Env) (st : Store)
    (lookup : UserLookup) (S P : String) (email : Option String) (fresh : String)
    (henv : env.projGetFails = false)
    (h : ∀ p ∈ st.projects, p.projectId = P → p.ownerId ≠ S) :
    invite_user_to_project env st lookup S P email fresh = (403, st) := by
  unfold invite_user_to_project
  rw [henv]
  simp only [Bool.false_eq_true, if_false]
  cases hf : st.projects.find? (fun p => p.projectId == P) with
  | none => rfl
  | some proj =>
    have hmem : proj ∈ st.projects := List.mem_of_find?_eq_some hf
    have hpred : (proj.projectId == P) = true :=
      List.find?_some (p := fun q : Project => q.projectId == P) hf
    have hown : proj.ownerId ≠ S := h proj hmem (by simpa using hpred)
    simp [hown]

/-- Witness for C2: collaborator `bob` (with a granted permission row,
but not owner) invites someone to `alice`'s project and gets 403 with
no state change, even though the invitee resolves to a valid subject. -/
theorem C2_invite_forbidden_for_non_owner_witness :
    invite_user_to_project envOk
      ⟨[projA], [permAlice, ⟨"perm2", "p1", "bob", "collaborator"⟩], [issue1]⟩
      (.found "dave-sub") "bob" "p1" (some "dave@x.com") "perm9" =
      (403, ⟨[projA], [permAlice, ⟨"perm2", "p1", "bob", "collaborator"⟩], [issue1]⟩) :=
  C2_invite_forbidden_for_non_owner envOk
    ⟨[projA], [permAlice, ⟨"perm2", "p1", "bob", "collaborator"⟩], [issue1]⟩
    (.found "dave-sub") "bob" "p1" (some "dave@x.com") "perm9" rfl (by decide)

/-- C10: inviting on a project id for which no project record exists
fails with Forbidden (403, "Not authorized to share this project"), not
NotFound — for invite, unlike `get_project`, nonexistence is reported as
an authorization failure. -/
theorem C10_invite_missing_project_forbidden (env : Env) (st : Store)
    (lookup : UserLookup) (S P : String) (email : Option String) (fresh : String)
    (henv : env.projGetFails = false)
    (h : st.projects.find? (fun p => p.projectId == P) = none) :
    invite_user_to_project env st lookup S P email fresh = (403, st) := by
  unfold invite_user_to_project
  rw [henv]
  simp [h]

/-- Witness for C10: `alice` invites to a project id that does not
exist and receives 403, not 404. -/
theorem C10_invite_missing_project_forbidden_witness :
    invite_user_to_project envOk baseStore (.found "bob-sub") "alice" "ghost"
      (some "bob@x.com") "perm9" = (403, baseStore) :=
  C10_invite_missing_project_forbidden envOk baseStore (.found "bob-sub")
    "alice" "ghost" (some "bob@x.com") "perm9" rfl (by decide)

/-- Counterexample for C1 as stated: `carol` holds no permission row on
`p1`, project `p1` does hold data (one issue), yet
`get_all_issues` with the `projectId=p1` filter (the `listForProject`
operation) responds with status 200 — it does not fail with NotFound or
Forbidden; it silently returns an empty collection. -/
theorem C1_cex_listForProject_returns_200 :
    (∀ p ∈ baseStore.permissions, ¬ (p.projectId = "p1" ∧ p.userId = "carol")) ∧
    (baseStore.issues.filter fun i => i.projectId == "p1") ≠ [] ∧
    (get_all_issues envOk baseStore "carol" ⟨none, none, none, some "p1"⟩).1 = 200 ∧
    ¬ ((get_all_issues envOk baseStore "carol" ⟨none, none, none, some "p1"⟩).1 = 404 ∨
       (get_all_issues envOk baseStore "carol" ⟨none, none, none, some "p1"⟩).1 = 403) := by
  decide

/-- C1 (amended): for every subject S with no permission row on project
P, `get_project` fails with 404 returning no data, `update_issue` and
`delete_issue` on an issue of P fail with 403 leaving the store
unchanged, and `get_all_issues` filtered to P does not fail but answers
200 with the empty list — in every case no data belonging to P is
returned. -/
theorem C1_access_gating (env : Env) (st : Store) (S P : String)
    (h : ∀ p ∈ st.permissions, ¬ (p.projectId = P ∧ p.userId = S)) :
    get_project env st S P = (404, none) ∧
    (∀ f : IssueFilters, f.projectId = some P →
      get_all_issues env st S f = (200, [])) ∧
    (∀ issue_id issue d now, env.issueScanFails = false →
      st.issues.find? (fun i => i.id == issue_id) = some issue →
      issue.projectId = P →
      update_issue env st S issue_id (some d) now = (403, none, st)) ∧
    (∀ issue_id issue, env.issueScanFails = false →
      st.issues.find? (fun i => i.id == issue_id) = some issue →
      issue.projectId = P →
      delete_issue env st S issue_id = (403, st)) := by
  have hacc := access_false_of_no_row env st.permissions S P h
  refine ⟨?_, ?_, ?_, ?_⟩
  · unfold get_project
    rw [hacc]
    rfl
  · intro f hf
    unfold get_all_issues
    rw [hf]
    simp [hacc, applyFilters_nil, sortByCreatedDesc]
  · intro issue_id issue d now hscan hfind hproj
    unfold update_issue
    rw [hscan, hfind]
    simp [hproj, hacc]
  · intro issue_id issue hscan hfind hproj
    unfold delete_issue
    rw [hscan, hfind]
    simp [hproj, hacc]

/-- Witness for C1 (amended), instantiated for `carol` against `p1` of
`baseStore`, exercising all four operations. -/
theorem C1_access_gating_witness :
    get_project envOk baseStore "carol" "p1" = (404, none) ∧
    get_all_issues envOk baseStore "carol" ⟨none, none, none, some "p1"⟩ = (200, []) ∧
    update_issue envOk baseStore "carol" "i1" (some ⟨some "New", none, none, none⟩) 9 =
      (403, none, baseStore) ∧
    delete_issue envOk baseStore "carol" "i1" = (403, baseStore) := by
  obtain ⟨h1, h2, h3, h4⟩ := C1_access_gating envOk baseStore "carol" "p1" (by decide)
  exact ⟨h1, h2 ⟨none, none, none, some "p1"⟩ rfl,
    h3 "i1" issue1 ⟨some "New", none, none, none⟩ 9 rfl (by decide) rfl,
    h4 "i1" issue1 rfl (by decide) rfl⟩

/-- `validate_issue_data` rejects a title that is empty after trimming,
and rejects any priority outside the enumeration, whatever the other
fields are. -/
theorem validate_issue_data_rejects (data : IssueReq)
    (hbad : (∃ t, data.title = some t ∧ pyStrip t = "") ∨
            (∃ p, data.priority = some p ∧
              p ∉ (["low", "medium", "high"] : List String))) :
    (validate_issue_data data).1 = false := by
  unfold validate_issue_data
  rcases hbad with ⟨t, ht, htrim⟩ | ⟨p, hp, hmem⟩
  · have h1 : fieldMissingOrEmpty data.title = true := by
      simp [fieldMissingOrEmpty, ht, htrim]
    simp [h1]
  · split
    · rfl
    split
    · rfl
    split
    · rfl
    split
    · rfl
    split
    · rfl
    · rename_i hcond
      exfalso
      apply hcond
      rw [hp]
      simpa using hmem

/-- C6: for an issue-creation request by a subject with project access,
an empty-after-trimming title, or any priority outside
low/medium/high (for instance "urgent"), makes `create_issue` fail with
a ValidationError (400) and write no issue record: the store is
returned unchanged. -/
theorem C6_create_issue_validation (env : Env) (st : Store) (S : String)
    (data : IssueReq) (issue_id : String) (created_at : Nat)
    (hacc : user_has_project_access env st.permissions S
      (data.projectId.getD "") = true)
    (hbad : (∃ t, data.title = some t ∧ pyStrip t = "") ∨
            (∃ p, data.priority = some p ∧
              p ∉ (["low", "medium", "high"] : List String))) :
    create_issue env st S data issue_id created_at = (400, none, st) := by
  unfold create_issue
  split
  · rfl
  · rw [hacc]
    have hv := validate_issue_data_rejects data hbad
    simp [hv]

/-- Witness for C6, both halves: `alice` (who has access to `p1`)
creates an issue with a whitespace-only title, then one with
priority "urgent"; both are rejected with 400 and no record. -/
theorem C6_create_issue_validation_witness :
    create_issue envOk baseStore "alice"
      ⟨some "   ", some "d", some "wall-1", some "alice", some "p1", none, none⟩
      "i9" 7 = (400, none, baseStore) ∧
    create_issue envOk baseStore "alice"
      ⟨some "Crack", some "d", some "wall-1", some "alice", some "p1",
        some "urgent", none⟩ "i9" 7 = (400, none, baseStore) :=
  ⟨C6_create_issue_validation envOk baseStore "alice"
      ⟨some "   ", some "d", some "wall-1", some "alice", some "p1", none, none⟩
      "i9" 7 (by decide) (Or.inl ⟨"   ", rfl, by decide⟩),
   C6_create_issue_validation envOk baseStore "alice"
      ⟨some "Crack", some "d", some "wall-1", some "alice", some "p1",
        some "urgent", none⟩ "i9" 7 (by decide) (Or.inr ⟨"urgent", rfl, by decide⟩)⟩

/-- C8: when the S3 upload of the model blob fails, `create_project`
fails with a StoreFailure (500) and writes neither a project record nor
a permission record — the store is returned unchanged. -/
theorem C8_create_project_upload_failure (env : Env) (st : Store) (S : String)
    (filename name model_key project_id permission_id : String) (created_at : Nat)
    (hfn : filename ≠ "") (hext : allowed_file filename = true)
    (hup : env.s3UploadOk = false) :
    create_project env st S (some filename) (some name) model_key project_id
      permission_id created_at = (500, none, st) := by
  unfold create_project
  have h1 : (filename == "") = false := by simpa using hfn
  simp [h1, hext, hup]

/-- Witness for C8: uploading `model.glb` with a failing object store
yields 500 and an unchanged store. -/
theorem C8_create_project_upload_failure_witness :
    create_project ⟨false, false, false, false, true, true, true, true, true, true⟩
      baseStore "alice" (some "model.glb") (some "Tower") "key9" "p9" "perm9" 4 =
      (500, none, baseStore) :=
  C8_create_project_upload_failure
    ⟨false, false, false, false, true, true, true, true, true, true⟩
    baseStore "alice" "model.glb" "Tower" "key9" "p9" "perm9" 4
    (by decide) (by decide) rfl

/-- C9: the access check fails closed — when the permission-table scan
raises, `user_has_project_access` returns false, so `get_project`
answers 404, and `create_issue`, `update_issue` and `delete_issue`
answer 403: the store failure is reported as access denial, never as a
500 StoreFailure. -/
theorem C9_access_check_fails_closed (env : Env) (st : Store) (S P : String)
    (hfail : env.permScanFails = true) :
    user_has_project_access env st.permissions S P = false ∧
    (get_project env st S P).1 = 404 ∧
    (∀ data : IssueReq, ∀ issue_id created_at,
      data.title.isSome → data.description.isSome → data.objectId.isSome →
      data.author.isSome → data.projectId.isSome →
      create_issue env st S data issue_id created_at = (403, none, st)) ∧
    (∀ issue_id issue d now, env.issueScanFails = false →
      st.issues.find? (fun i => i.id == issue_id) = some issue →
      update_issue env st S issue_id (some d) now = (403, none, st)) ∧
    (∀ issue_id issue, env.issueScanFails = false →
      st.issues.find? (fun i => i.id == issue_id) = some issue →
      delete_issue env st S issue_id = (403, st)) := by
  have hacc : ∀ Q, user_has_project_access env st.permissions S Q = false := by
    intro Q
    unfold user_has_project_access
    rw [hfail]
    rfl
  refine ⟨hacc P, ?_, ?_, ?_, ?_⟩
  · unfold get_project
    rw [hacc P]
    rfl
  · intro data issue_id created_at h1 h2 h3 h4 h5
    obtain ⟨tv, htv⟩ := Option.isSome_iff_exists.mp h1
    obtain ⟨dv, hdv⟩ := Option.isSome_iff_exists.mp h2
    obtain ⟨ov, hov⟩ := Option.isSome_iff_exists.mp h3
    obtain ⟨av, hav⟩ := Option.isSome_iff_exists.mp h4
    obtain ⟨pv, hpv⟩ := Option.isSome_iff_exists.mp h5
    simp [create_issue, htv, hdv, hov, hav, hpv, hacc]
  · intro issue_id issue d now hscan hfind
    unfold update_issue
    rw [hscan, hfind]
    simp [hacc]
  · intro issue_id issue hscan hfind
    unfold delete_issue
    rw [hscan, hfind]
    simp [hacc]

/-- Witness for C9: with the permission scan failing, even `alice` —
who does hold an owner row — is denied: 404 on her project, 403 on
issue create/update/delete, never a 500. -/
theorem C9_access_check_fails_closed_witness :
    user_has_project_access
      ⟨true, false, false, true, true, true, true, true, true, true⟩
      baseStore.permissions "alice" "p1" = false ∧
    (get_project ⟨true, false, false, true, true, true, true, true, true, true⟩
      baseStore "alice" "p1").1 = 404 ∧
    create_issue ⟨true, false, false, true, true, true, true, true, true, true⟩
      baseStore "alice"
      ⟨some "Leak", some "d", some "wall-1", some "alice", some "p1", none, none⟩
      "i9" 7 = (403, none, baseStore) ∧
    update_issue ⟨true, false, false, true, true, true, true, true, true, true⟩
      baseStore "alice" "i1" (some ⟨none, none, some "resolved", none⟩) 9 =
      (403, none, baseStore) ∧
    delete_issue ⟨true, false, false, true, true, true, true, true, true, true⟩
      baseStore "alice" "i1" = (403, baseStore) := by
  obtain ⟨h1, h2, h3, h4, h5⟩ := C9_access_check_fails_closed
    ⟨true, false, false, true, true, true, true, true, true, true⟩
    baseStore "alice" "p1" rfl
  exact ⟨h1, h2,
    h3 ⟨some "Leak", some "d", some "wall-1", some "alice", some "p1", none, none⟩
      "i9" 7 rfl rfl rfl rfl rfl,
    h4 "i1" issue1 ⟨none, none, some "resolved", none⟩ 9 rfl (by decide),
    h5 "i1" issue1 rfl (by decide)⟩

/-- C4: when owner A invites a resolved subject B to project P for the
first time, the call succeeds and appends exactly one collaborator
permission row for (P, B) — afterwards the rows matching (P, B) are
exactly that one row; a second identical invite fails with the Conflict
error ("already invited", HTTP 400 per the error taxonomy) and leaves
the store untouched, so invitation never produces a duplicate
(projectId, userId) permission row. -/
theorem C4_invite_once_then_conflict (env : Env) (st : Store)
    (A P B email fresh1 fresh2 : String) (proj : Project)
    (henv1 : env.projGetFails = false) (henv2 : env.permScanFails = false)
    (henv3 : env.permPutOk = true)
    (hfind : st.projects.find? (fun p => p.projectId == P) = some proj)
    (hown : proj.ownerId = A)
    (hnone : (st.permissions.filter fun p => p.projectId == P && p.userId == B) = []) :
    invite_user_to_project env st (.found B) A P (some email) fresh1 =
      (200, { st with permissions := st.permissions ++ [⟨fresh1, P, B, "collaborator"⟩] }) ∧
    ((st.permissions ++ [(⟨fresh1, P, B, "collaborator"⟩ : Permission)]).filter
        fun p : Permission => p.projectId == P && p.userId == B) =
      [(⟨fresh1, P, B, "collaborator"⟩ : Permission)] ∧
    invite_user_to_project env
      { st with permissions := st.permissions ++ [⟨fresh1, P, B, "collaborator"⟩] }
      (.found B) A P (some email) fresh2 =
      (400, { st with permissions := st.permissions ++ [⟨fresh1, P, B, "collaborator"⟩] }) := by
  have hrow : ((⟨fresh1, P, B, "collaborator"⟩ : Permission).projectId == P &&
      (⟨fresh1, P, B, "collaborator"⟩ : Permission).userId == B) = true := by simp
  refine ⟨?_, ?_, ?_⟩
  · unfold invite_user_to_project
    rw [henv1]
    simp [hfind, hown, henv2, henv3, hnone]
  · rw [List.filter_append, hnone]
    simp
  · unfold invite_user_to_project
    rw [henv1]
    simp [hfind, hown, henv2, List.filter_append, hnone]

/-- Witness for C4: `alice` invites `bob-sub` to `p1` — success and one
collaborator row; the repeat invite is rejected with 400 and no extra
row. -/
theorem C4_invite_once_then_conflict_witness :
    invite_user_to_project envOk baseStore (.found "bob-sub") "alice" "p1"
      (some "bob@x.com") "permN1" =
      (200, { baseStore with permissions :=
        baseStore.permissions ++ [⟨"permN1", "p1", "bob-sub", "collaborator"⟩] }) ∧
    ((baseStore.permissions ++ [(⟨"permN1", "p1", "bob-sub", "collaborator"⟩ : Permission)]).filter
        fun p : Permission => p.projectId == "p1" && p.userId == "bob-sub") =
      [(⟨"permN1", "p1", "bob-sub", "collaborator"⟩ : Permission)] ∧
    invite_user_to_project envOk
      { baseStore with permissions :=
        baseStore.permissions ++ [⟨"permN1", "p1", "bob-sub", "collaborator"⟩] }
      (.found "bob-sub") "alice" "p1" (some "bob@x.com") "permN2" =
      (400, { baseStore with permissions :=
        baseStore.permissions ++ [⟨"permN1", "p1", "bob-sub", "collaborator"⟩] }) :=
  C4_invite_once_then_conflict envOk baseStore "alice" "p1" "bob-sub"
    "bob@x.com" "permN1" "permN2" projA rfl rfl rfl (by decide) rfl (by decide)

/-- C7: a successful `update_issue` (status 200) on an issue whose
prior `updatedAt` lies before the current clock returns a record whose
`updatedAt` strictly increased, whose requested fields were updated,
and whose unrequested fields — and the immutable identity fields —
are exactly those of the prior record. -/
theorem C7_update_advances_updatedAt_and_frames (env : Env) (st : Store)
    (S issue_id : String) (d : UpdateReq) (now : Nat) (cur : Issue)
    (hfind : st.issues.find? (fun i => i.id == issue_id) = some cur)
    (hnow : cur.updatedAt < now)
    (h200 : (update_issue env st S issue_id (some d) now).1 = 200) :
    ∃ u, (update_issue env st S issue_id (some d) now).2.1 = some u ∧
      cur.updatedAt < u.updatedAt ∧
      (d.title = none → u.title = cur.title) ∧
      (d.description = none → u.description = cur.description) ∧
      (d.status = none → u.status = cur.status) ∧
      (d.priority = none → u.priority = cur.priority) ∧
      u.projectId = cur.projectId ∧ u.sortKey = cur.sortKey ∧ u.id = cur.id ∧
      u.objectId = cur.objectId ∧ u.author = cur.author ∧
      u.createdAt = cur.createdAt ∧ u.owner_sub = cur.owner_sub := by
  cases hscan : env.issueScanFails with
  | true =>
    unfold update_issue at h200
    rw [hscan] at h200
    simp at h200
  | false =>
    cases hacc : user_has_project_access env st.permissions S cur.projectId with
    | false =>
      unfold update_issue at h200
      rw [hscan, hfind] at h200
      simp [hacc] at h200
    | true =>
      cases hval : update_fields_valid d with
      | false =>
        unfold update_issue at h200
        rw [hscan, hfind] at h200
        simp [hacc, hval] at h200
      | true =>
        cases hupd : env.issueUpdateOk with
        | false =>
          unfold update_issue at h200
          rw [hscan, hfind] at h200
          simp [hacc, hval, hupd] at h200
        | true =>
          refine ⟨applyUpdate cur d now, ?_, ?_, ?_, ?_, ?_, ?_, ?_, ?_, ?_, ?_, ?_, ?_, ?_⟩
          · unfold update_issue
            rw [hscan, hfind]
            simp [hacc, hval, hupd]
          · simpa [applyUpdate] using hnow
          · intro h
            simp [applyUpdate, h]
          · intro h
            simp [applyUpdate, h]
          · intro h
            simp [applyUpdate, h]
          · intro h
            simp [applyUpdate, h]
          · rfl
          · rfl
          · rfl
          · rfl
          · rfl
          · rfl
          · rfl

/-- Witness for C7: `alice` sets the status of issue `i1` (last updated
at time 5) to resolved at time 9; the update succeeds and the theorem
applies. -/
theorem C7_update_advances_updatedAt_and_frames_witness :
    ∃ u, (update_issue envOk baseStore "alice" "i1"
        (some ⟨none, none, some "resolved", none⟩) 9).2.1 = some u ∧
      issue1.updatedAt < u.updatedAt ∧
      ((none : Option String) = none → u.title = issue1.title) ∧
      ((none : Option String) = none → u.description = issue1.description) ∧
      ((some "resolved" : Option String) = none → u.status = issue1.status) ∧
      ((none : Option String) = none → u.priority = issue1.priority) ∧
      u.projectId = issue1.projectId ∧ u.sortKey = issue1.sortKey ∧
      u.id = issue1.id ∧ u.objectId = issue1.objectId ∧ u.author = issue1.author ∧
      u.createdAt = issue1.createdAt ∧ u.owner_sub = issue1.owner_sub :=
  C7_update_advances_updatedAt_and_frames envOk baseStore "alice" "i1"
    ⟨none, none, some "resolved", none⟩ 9 issue1 (by decide) (by decide) (by decide)

/-- Two lists sorted descending by `createdAt` that are permutations of
each other are equal, provided elements of the first agreeing on
`createdAt` are equal (which holds when creation times are distinct). -/
theorem sortedDesc_perm_eq (l₁ : List Issue) :
    ∀ l₂ : List Issue,
    (∀ a ∈ l₁, ∀ b ∈ l₁, a.createdAt = b.createdAt → a = b) →
    l₁.Perm l₂ → l₁.Sorted createdGe → l₂.Sorted createdGe → l₁ = l₂ := by
  induction l₁ with
  | nil =>
    intro l₂ _ hp _ _
    exact hp.nil_eq
  | cons a t ih =>
    intro l₂ hinj hp hs₁ hs₂
    cases l₂ with
    | nil => simpa using hp.symm.nil_eq
    | cons b t₂ =>
      have hab : a = b := by
        have hamem : a ∈ b :: t₂ := hp.mem_iff.mp (List.mem_cons_self a t)
        have hbmem : b ∈ a :: t := hp.mem_iff.mpr (List.mem_cons_self b t₂)
        rcases List.mem_cons.mp hamem with h | h
        · exact h
        rcases List.mem_cons.mp hbmem with h' | h'
        · exact h'.symm
        have h1 : createdGe a b := List.rel_of_sorted_cons hs₁ b h'
        have h2 : createdGe b a := List.rel_of_sorted_cons hs₂ a h
        exact hinj a (List.mem_cons_self a t) b (List.mem_cons_of_mem a h')
          (Nat.le_antisymm h2 h1)
      subst hab
      have ht : t.Perm t₂ := hp.cons_inv
      have heq : t = t₂ :=
        ih t₂
          (fun x hx y hy => hinj x (List.mem_cons_of_mem a hx) y
            (List.mem_cons_of_mem a hy))
          ht hs₁.of_cons hs₂.of_cons
      rw [heq]

/-- C5: when the issue table holds, under project P's partition, exactly
three issues with strictly increasing creation times t1 < t2 < t3 (in
any storage order), an accessing subject's `listForProject`
(`get_all_issues` filtered to P) returns them newest first:
[t3, t2, t1]. -/
theorem C5_listForProject_newest_first (env : Env) (st : Store) (S P : String)
    (i1 i2 i3 : Issue)
    (hpart : (st.issues.filter fun i => i.projectId == P).Perm [i1, i2, i3])
    (h12 : i1.createdAt < i2.createdAt) (h23 : i2.createdAt < i3.createdAt)
    (hacc : user_has_project_access env st.permissions S P = true) :
    get_all_issues env st S ⟨none, none, none, some P⟩ = (200, [i3, i2, i1]) := by
  unfold get_all_issues
  simp only [hacc, if_true]
  have hq : (queryIssuesDesc st.issues P).Perm [i1, i2, i3] :=
    (List.perm_insertionSort sortKeyGe _).trans hpart
  have happ :
      applyFilters ⟨none, none, none, some P⟩ (queryIssuesDesc st.issues P) =
        queryIssuesDesc st.issues P := rfl
  rw [happ]
  have hrev : ([i1, i2, i3] : List Issue).Perm [i3, i2, i1] :=
    (List.reverse_perm [i1, i2, i3]).symm
  have hperm3 : (sortByCreatedDesc (queryIssuesDesc st.issues P)).Perm [i3, i2, i1] :=
    ((List.perm_insertionSort createdGe _).trans hq).trans hrev
  have hs₁ : (sortByCreatedDesc (queryIssuesDesc st.issues P)).Sorted createdGe :=
    List.sorted_insertionSort createdGe _
  have hs₂ : ([i3, i2, i1] : List Issue).Sorted createdGe := by
    refine List.Pairwise.cons ?_ (List.Pairwise.cons ?_
      (List.Pairwise.cons ?_ List.Pairwise.nil))
    · intro b hb
      simp only [List.mem_cons, List.not_mem_nil, or_false] at hb
      rcases hb with h | h <;> rw [h]
      · exact Nat.le_of_lt h23
      · exact Nat.le_of_lt (Nat.lt_trans h12 h23)
    · intro b hb
      simp only [List.mem_cons, List.not_mem_nil, or_false] at hb
      rw [hb]
      exact Nat.le_of_lt h12
    · intro b hb
      simp at hb
  have hinj : ∀ a ∈ sortByCreatedDesc (queryIssuesDesc st.issues P),
      ∀ b ∈ sortByCreatedDesc (queryIssuesDesc st.issues P),
      a.createdAt = b.createdAt → a = b := by
    intro a ha b hb hab
    have ha' : a ∈ ([i3, i2, i1] : List Issue) := hperm3.mem_iff.mp ha
    have hb' : b ∈ ([i3, i2, i1] : List Issue) := hperm3.mem_iff.mp hb
    simp only [List.mem_cons, List.not_mem_nil, or_false] at ha' hb'
    rcases ha' with rfl | rfl | rfl <;> rcases hb' with rfl | rfl | rfl <;>
      first
        | rfl
        | omega
  have hfinal : sortByCreatedDesc (queryIssuesDesc st.issues P) = [i3, i2, i1] :=
    sortedDesc_perm_eq _ _ hinj hperm3 hs₁ hs₂
  rw [hfinal]

/-- Witness for C5: project `p1` holds three issues created at times
1, 2, 3, stored in scrambled order; `alice` lists them and receives
them newest first. -/
theorem C5_listForProject_newest_first_witness :
    get_all_issues envOk
      ⟨[projA], [permAlice],
        [⟨"p1", "ISSUE#b#2", "b", "o2", "T2", "D2", "alice", "low", "open", 2, 2, "alice"⟩,
         ⟨"p1", "ISSUE#c#3", "c", "o3", "T3", "D3", "alice", "high", "open", 3, 3, "alice"⟩,
         ⟨"p1", "ISSUE#a#1", "a", "o1", "T1", "D1", "alice", "medium", "open", 1, 1, "alice"⟩]⟩
      "alice" ⟨none, none, none, some "p1"⟩ =
      (200,
        [⟨"p1", "ISSUE#c#3", "c", "o3", "T3", "D3", "alice", "high", "open", 3, 3, "alice"⟩,
         ⟨"p1", "ISSUE#b#2", "b", "o2", "T2", "D2", "alice", "low", "open", 2, 2, "alice"⟩,
         ⟨"p1", "ISSUE#a#1", "a", "o1", "T1", "D1", "alice", "medium", "open", 1, 1, "alice"⟩]) :=
  C5_listForProject_newest_first envOk
    ⟨[projA], [permAlice],
      [⟨"p1", "ISSUE#b#2", "b", "o2", "T2", "D2", "alice", "low", "open", 2, 2, "alice"⟩,
       ⟨"p1", "ISSUE#c#3", "c", "o3", "T3", "D3", "alice", "high", "open", 3, 3, "alice"⟩,
       ⟨"p1", "ISSUE#a#1", "a", "o1", "T1", "D1", "alice", "medium", "open", 1, 1, "alice"⟩]⟩
    "alice" "p1"
    ⟨"p1", "ISSUE#a#1", "a", "o1", "T1", "D1", "alice", "medium", "open", 1, 1, "alice"⟩
    ⟨"p1", "ISSUE#b#2", "b", "o2", "T2", "D2", "alice", "low", "open", 2, 2, "alice"⟩
    ⟨"p1", "ISSUE#c#3", "c", "o3", "T3", "D3", "alice", "high", "open", 3, 3, "alice"⟩
    (by decide) (by decide) (by decide) (by decide)

end BimViewer
